import Mathlib

set_option maxHeartbeats 1000000

/-!
Shallow embedding of the myname-world order-fulfillment handlers.

The repository is a set of near-duplicate serverless handlers:
* `src/unnamed/part_000`          — intake-only webhook (append `queued` row, idempotent)
* `src/unnamed/part_001` (2nd doc)— inline-fulfillment webhook (skip if delivered/processing)
* `src/unnamed/part_002` (1st doc)— debug-mode inline webhook (never skips, always regenerates)
* `src/unnamed/part_003` (2nd doc)— same debug-mode flow as part_002
* `src/api/webhook.js/api/webhook.js` 1st doc — verify-and-log handler (no store)
* `src/api/webhook.js/api/webhook.js` 2nd doc — append-only handler WITHOUT signature verification
* `src/api/worker.js`             — cron worker claiming `queued` rows

Modelling conventions, used uniformly below:
* JS strings with `undefined`/missing modelled as `""` (every relevant source
  site guards values with `String(s || "")`, `|| ""`, `|| default`, or `?? ""`,
  which identify `undefined`, `null` and `""`).
* The spreadsheet tab is a list of data rows (the source scans `values[1..]`,
  skipping the header row; sheet row `i+2` is index `i` here, and the JS
  1-based `rowIndex = i + 1` used for range updates addresses the same row
  that index `i` addresses here).
* External effects (Stripe signature verification, canvas rendering, blob
  upload, renderer HTTP call, email send) are oracles passed as arguments;
  each handler result carries the HTTP status, the resulting store, and the
  number of `generateNamePNG` calls performed.
-/

/-- One row of the `orders_state` tab.
Columns: A session_id | B email | C status | D created_at | E updated_at
| F error | G png_url.  A cell that was never written is `""`. -/
structure Row where
  session_id : String
  email : String
  status : String
  created_at : String
  updated_at : String
  error : String
  png_url : String
deriving Repr, DecidableEq

/-- The fields of `event.data.object` (a Stripe checkout session) that any of
the handlers read.  A missing field is modelled as `""`. -/
structure StripeSession where
  id : String
  payment_status : String
  customer_details_email : String
  customer_email : String
  english_name : String
  chinese_name : String
  payment_intent : String
  amount_total : String
  currency : String
  metadata_name : String
deriving Repr, DecidableEq

/-- A Stripe event as produced by `stripe.webhooks.constructEvent`. -/
structure StripeEvent where
  type : String
  session : StripeSession
deriving Repr, DecidableEq

/-- Outcome of the signature check performed at the top of each verifying
handler: the `stripe-signature` header is absent, or
`stripe.webhooks.constructEvent` throws, or it returns a verified event. -/
inductive SigCheck where
  | missing
  | invalid
  | valid (event : StripeEvent)
deriving Repr, DecidableEq

/-- Outcome of the inline `generateNamePNG` + `put` (blob upload) sequence of
the fulfillment webhooks: a public URL, or a thrown error whose `.message`
is `msg` (`""` models an error object without a message). -/
inductive DeliveryOutcome where
  | ok (url : String)
  | err (msg : String)
deriving Repr, DecidableEq

/-- JS `a || b` on strings (`""` and `undefined` are both falsy). -/
def orElseStr (a b : String) : String :=
  if a = "" then b else a

/-- JS `m || d` for an error message with a default. -/
def jsOrDefault (m d : String) : String :=
  if m = "" then d else m

/-- JS `String.prototype.slice(0, n)` on the character list of a string
(faithful for the plain-text error messages that reach it). -/
def strTake (s : String) (n : Nat) : String :=
  ⟨s.data.take n⟩

/-- A whitespace character as stripped by JS `String.prototype.trim()`
(restricted to the ASCII whitespace occurring in this data). -/
def isWsChar (c : Char) : Bool :=
  c = ' ' ∨ c = '\t' ∨ c = '\n' ∨ c = '\r'

/-- JS `String.prototype.trim()`: strip leading and trailing whitespace
(structural definition over the character list, so that concrete handler
runs evaluate). -/
def jsTrim (s : String) : String :=
  ⟨((s.data.dropWhile isWsChar).reverse.dropWhile isWsChar).reverse⟩

/-- ASCII lower-casing of one character, as `toLowerCase()` acts on the
status strings involved. -/
def charLower (c : Char) : Char :=
  if 'A' ≤ c ∧ c ≤ 'Z' then Char.ofNat (c.toNat + 32) else c

/-- JS `String.prototype.toLowerCase()` (ASCII-faithful). -/
def jsToLower (s : String) : String :=
  ⟨s.data.map charLower⟩

/-- In-place update of the element at index `i` (the spreadsheet `update`
calls target single cells of one row; rows are never inserted or deleted by
an update, so indices are stable). -/
def listModify (l : List α) (i : Nat) (f : α → α) : List α :=
  List.modify f i l

namespace Part000

/-- Source function `norm` from part_000: `String(s || "").trim()`. -/
def norm (s : String) : String := jsTrim s

/-- The part_000 webhook handler (intake only, no rendering).  part_000 has
no method check; its outer catch returns 200, and the environment is assumed
configured.  Result: (HTTP status, store, number of renders = 0). -/
def handler (sig : SigCheck) (store : List Row) (now : String) :
    Nat × List Row × Nat :=
  match sig with
  | .missing => (400, store, 0)
  | .invalid => (400, store, 0)
  | .valid event =>
    if event.type ≠ "checkout.session.completed" then (200, store, 0) else
    let paymentStatus := jsToLower (norm event.session.payment_status)
    if paymentStatus ≠ "" ∧ paymentStatus ≠ "paid" then (200, store, 0) else
    let sessionId := norm event.session.id
    let email := norm (orElseStr event.session.customer_details_email
      event.session.customer_email)
    if sessionId = "" then (400, store, 0) else
    if email = "" then (200, store, 0) else
    match store.findIdx? (fun r => norm r.session_id == sessionId) with
    | some _ => (200, store, 0)
    | none =>
      (200, store ++ [⟨sessionId, email, "queued", now, now, "", ""⟩], 0)

end Part000

namespace Part001

/-- Source function `findRowIndexBySessionId` from part_001 (2nd doc): linear scan of column A
comparing `(cell || "").trim() === sessionId`; returns the row's index. -/
def findRowIndexBySessionId (store : List Row) (sessionId : String) :
    Option Nat :=
  store.findIdx? (fun r => jsTrim r.session_id == sessionId)

/-- Source function `getStatusByRow`: reads cell C of the row, `|| ""` on a missing cell. -/
def getStatusByRow (store : List Row) (i : Nat) : String :=
  (store[i]?.map Row.status).getD ""

/-- Source function `appendOrderRow`: appends `[sessionId, email, status, now, now, error]`
over range A:F.  The schema of this variant ends at column F, so `png_url`
(column G) is never written: it stays `""`. -/
def appendOrderRow (store : List Row) (sessionId email status : String)
    (now : String) : List Row :=
  store ++ [⟨sessionId, email, status, now, now, "", ""⟩]

/-- Source function `updateOrderStatus`: three single-cell updates, C (status), E
(updated_at) and F (error), of row `i`. -/
def updateOrderStatus (store : List Row) (i : Nat) (status error : String)
    (now : String) : List Row :=
  listModify store i (fun r =>
    { r with status := status, updated_at := now, error := error })

/-- Result of the idempotency block of the part_001 handler: either the row
is already `delivered`/`processing` (early 200 return), or the store after
the reset-to-processing update / the fresh append. -/
inductive UpsertResult where
  | duplicate (status : String)
  | proceed (store : List Row)
deriving Repr, DecidableEq

/-- The idempotency block (part_001 lines 219–231 of the raw file): look up
the session; skip if `delivered` or `processing`; otherwise reset the row to
`processing`, or append a fresh `processing` row. -/
def upsert (store : List Row) (sessionId email : String) (now : String) :
    UpsertResult :=
  match findRowIndexBySessionId store sessionId with
  | some i =>
    let status := getStatusByRow store i
    if status = "delivered" ∨ status = "processing" then .duplicate status
    else .proceed (updateOrderStatus store i "processing" "" now)
  | none => .proceed (appendOrderRow store sessionId email "processing" now)

/-- The part_001 (2nd doc) webhook handler with inline fulfillment.
Result: (HTTP status, store, number of `generateNamePNG` calls).  When the
post-upsert lookup loses the row (only possible for a session id that does
not survive `trim`), the pending cell update throws outside any catch and
the platform answers 500; `generateNamePNG` has run by then. -/
def handler (method : String) (sig : SigCheck) (store : List Row)
    (now : String) (delivery : DeliveryOutcome) : Nat × List Row × Nat :=
  if method ≠ "POST" then (405, store, 0) else
  match sig with
  | .missing => (400, store, 0)
  | .invalid => (400, store, 0)
  | .valid event =>
    if event.type ≠ "checkout.session.completed" then (200, store, 0) else
    let sessionId := event.session.id
    let email := orElseStr event.session.customer_details_email
      event.session.customer_email
    match upsert store sessionId email now with
    | .duplicate _ => (200, store, 0)
    | .proceed store1 =>
      match findRowIndexBySessionId store1 sessionId with
      | none => (500, store1, 1)
      | some j =>
        match delivery with
        | .ok _url =>
          (200, updateOrderStatus store1 j "delivered" "" now, 1)
        | .err m =>
          (500, updateOrderStatus store1 j "failed"
            (jsOrDefault m "unknown_error") now, 1)

end Part001

namespace Part002

/-- Source function `findRowIndexBySessionId` from part_002 (1st doc), identical scan. -/
def findRowIndexBySessionId (store : List Row) (sessionId : String) :
    Option Nat :=
  store.findIdx? (fun r => jsTrim r.session_id == sessionId)

/-- Source function `getStatusByRow` from part_002 (read and logged, never branched on). -/
def getStatusByRow (store : List Row) (i : Nat) : String :=
  (store[i]?.map Row.status).getD ""

/-- Source function `appendOrderRow` from part_002; schema A:F again, `png_url` never set. -/
def appendOrderRow (store : List Row) (sessionId email status : String)
    (now : String) : List Row :=
  store ++ [⟨sessionId, email, status, now, now, "", ""⟩]

/-- Source function `updateOrderStatus` from part_002: updates C, E, F of row `i`. -/
def updateOrderStatus (store : List Row) (i : Nat) (status error : String)
    (now : String) : List Row :=
  listModify store i (fun r =>
    { r with status := status, updated_at := now, error := error })

/-- The shared try/catch delivery block of the debug handler: render +
upload, then mark `delivered` (200) or `failed` (500). -/
def fulfill (store1 : List Row) (j : Nat) (delivery : DeliveryOutcome)
    (now : String) : Nat × List Row × Nat :=
  match delivery with
  | .ok _url => (200, updateOrderStatus store1 j "delivered" "" now, 1)
  | .err m =>
    (500, updateOrderStatus store1 j "failed"
      (jsOrDefault m "unknown_error") now, 1)

/-- The part_002 (1st doc) debug-mode webhook handler: it looks the session
up but deliberately does NOT return on `delivered`/`duplicate` — an existing
row (whatever its status) is reset to `processing` and the image is
generated again. -/
def handler (method : String) (sig : SigCheck) (store : List Row)
    (now : String) (delivery : DeliveryOutcome) : Nat × List Row × Nat :=
  if method ≠ "POST" then (405, store, 0) else
  match sig with
  | .missing => (400, store, 0)
  | .invalid => (400, store, 0)
  | .valid event =>
    if event.type ≠ "checkout.session.completed" then (200, store, 0) else
    let sessionId := event.session.id
    let email := orElseStr event.session.customer_details_email
      event.session.customer_email
    match findRowIndexBySessionId store sessionId with
    | some i =>
      fulfill (updateOrderStatus store i "processing" "" now) i delivery now
    | none =>
      let store1 := appendOrderRow store sessionId email "processing" now
      match findRowIndexBySessionId store1 sessionId with
      | none => (500, store1, 1)
      | some j => fulfill store1 j delivery now

end Part002

namespace Part003

/-- Source function `findRowIndexBySessionId` from part_003 (2nd doc), identical scan. -/
def findRowIndexBySessionId (store : List Row) (sessionId : String) :
    Option Nat :=
  store.findIdx? (fun r => jsTrim r.session_id == sessionId)

/-- Source function `getStatusByRow` from part_003 (read and logged only). -/
def getStatusByRow (store : List Row) (i : Nat) : String :=
  (store[i]?.map Row.status).getD ""

/-- Source function `appendOrderRow` from part_003; schema A:F, no `png_url` column. -/
def appendOrderRow (store : List Row) (sessionId email status : String)
    (now : String) : List Row :=
  store ++ [⟨sessionId, email, status, now, now, "", ""⟩]

/-- Source function `updateOrderStatus` from part_003: updates C, E, F of row `i`. -/
def updateOrderStatus (store : List Row) (i : Nat) (status error : String)
    (now : String) : List Row :=
  listModify store i (fun r =>
    { r with status := status, updated_at := now, error := error })

/-- The try/catch delivery block of the part_003 debug handler. -/
def fulfill (store1 : List Row) (j : Nat) (delivery : DeliveryOutcome)
    (now : String) : Nat × List Row × Nat :=
  match delivery with
  | .ok _url => (200, updateOrderStatus store1 j "delivered" "" now, 1)
  | .err m =>
    (500, updateOrderStatus store1 j "failed"
      (jsOrDefault m "unknown_error") now, 1)

/-- The part_003 (2nd doc) debug-mode webhook handler: same flow as
part_002 — an existing row is never skipped, the image is always
regenerated. -/
def handler (method : String) (sig : SigCheck) (store : List Row)
    (now : String) (delivery : DeliveryOutcome) : Nat × List Row × Nat :=
  if method ≠ "POST" then (405, store, 0) else
  match sig with
  | .missing => (400, store, 0)
  | .invalid => (400, store, 0)
  | .valid event =>
    if event.type ≠ "checkout.session.completed" then (200, store, 0) else
    let sessionId := event.session.id
    let email := orElseStr event.session.customer_details_email
      event.session.customer_email
    match findRowIndexBySessionId store sessionId with
    | some i =>
      fulfill (updateOrderStatus store i "processing" "" now) i delivery now
    | none =>
      let store1 := appendOrderRow store sessionId email "processing" now
      match findRowIndexBySessionId store1 sessionId with
      | none => (500, store1, 1)
      | some j => fulfill store1 j delivery now

end Part003

namespace WebhookA

/-- The first handler of `src/api/webhook.js/api/webhook.js`: GET liveness
probe, 405 for other non-POST methods, 400 on missing/invalid signature,
otherwise log-only processing and 200.  It touches no store, so the result
is just the HTTP status (the catch-all 500 of its inner try is unreachable:
the block only logs). -/
def handler (method : String) (sig : SigCheck) : Nat :=
  if method = "GET" then 200
  else if method ≠ "POST" then 405
  else match sig with
  | .missing => 400
  | .invalid => 400
  | .valid _ => 200

end WebhookA

namespace WebhookB

/-- The object passed to `JSON.stringify` for the raw_json column, modelled
as the record of the serialized fields (the serialization is injective on
them, and no code ever reads the column back). -/
structure RawPayload where
  id : String
  payment_intent : String
  amount_total : String
  currency : String
  customer_email : String
  name : String
deriving Repr, DecidableEq

/-- One row of the `Orders` tab used by the second handler of
`src/api/webhook.js/api/webhook.js` (range A:I):
created_at | event_type | session_id | payment_intent | amount_total |
currency | customer_email | name | raw_json. -/
structure OrdersRow where
  created_at : String
  event_type : String
  session_id : String
  payment_intent : String
  amount_total : String
  currency : String
  customer_email : String
  name : String
  raw_json : RawPayload
deriving Repr, DecidableEq

/-- The second handler of webhook.js: it never reads the signature header
(`sig` is accepted and ignored — the source parses `req.body` directly with
the comment "without signature verify"), appends a row for every completed
checkout, and returns 200 even when the append fails. -/
def handler (method : String) (sig : SigCheck) (body : Option StripeEvent)
    (appendOk : Bool) (store : List OrdersRow) (now : String) :
    Nat × List OrdersRow :=
  if method ≠ "POST" then (405, store) else
  match body with
  | none => (400, store)
  | some event =>
    if event.type ≠ "checkout.session.completed" then (200, store) else
    let s := event.session
    let email := orElseStr s.customer_details_email s.customer_email
    let row : OrdersRow :=
      ⟨now, event.type, s.id, s.payment_intent, s.amount_total, s.currency,
        email, s.metadata_name,
        ⟨s.id, s.payment_intent, s.amount_total, s.currency, email,
          s.metadata_name⟩⟩
    if appendOk then (200, store ++ [row]) else (200, store)

end WebhookB

namespace Worker

/-- Source function `normStatus` from worker.js: `String(s || "").trim().toLowerCase()`. -/
def normStatus (s : String) : String := jsToLower (jsTrim s)

/-- A claimed job: `{ rowIndex, sessionId, email }` pushed by the scan loop
(`rowIndex` is this model's 0-based index into the data rows; sessionId and
email are the trimmed cell values). -/
structure Job where
  rowIndex : Nat
  sessionId : String
  email : String
deriving Repr, DecidableEq

/-- The scan loop of worker.js (lines 163–170): keep a row iff its trimmed
session_id and email are non-empty and its normalised status is "queued".
The accumulator `i` is the index of the head row. -/
def queuedJobsAux : Nat → List Row → List Job
  | _, [] => []
  | i, r :: rest =>
    let sessionId := jsTrim r.session_id
    let email := jsTrim r.email
    if sessionId ≠ "" ∧ email ≠ "" ∧ normStatus r.status = "queued" then
      ⟨i, sessionId, email⟩ :: queuedJobsAux (i + 1) rest
    else queuedJobsAux (i + 1) rest

/-- All queued jobs of the store, in row order. -/
def queuedJobs (rows : List Row) : List Job := queuedJobsAux 0 rows

/-- The `limit` query parameter as seen after `Number(req.query.limit || 3)`:
absent (or empty, both falsy → 3), a parsed number, or NaN. -/
inductive LimitArg where
  | absent
  | num (n : ℚ)
  | nan
deriving DecidableEq

/-- Clamp `Math.max(1, Math.min(10, Number(req.query.limit || 3)))`; `none` is
NaN, which both `Math.min` and `Math.max` propagate. -/
def clampedLimit : LimitArg → Option ℚ
  | .absent => some 3
  | .num n => some (max 1 (min 10 n))
  | .nan => none

/-- The element count taken by `queued.slice(0, limit)`:
`ToIntegerOrInfinity` maps NaN to 0 and truncates otherwise.  The reachable
clamped limits lie in [1, 10], where truncation is `num / den` on the
reduced fraction (JS negative-index slicing can never arise). -/
def sliceCount : Option ℚ → Nat
  | none => 0
  | some q => (q.num / (q.den : Int)).toNat

/-- Batch selection `const picked = queued.slice(0, limit)`. -/
def picked (rows : List Row) (arg : LimitArg) : List Job :=
  (queuedJobs rows).take (sliceCount (clampedLimit arg))

/-- The optional cell writes of one `updateRowCells` call: C status,
E updated_at, F error, G png_url; a `none` field is not written. -/
structure CellPatch where
  status : Option String
  updatedAt : Option String
  error : Option String
  pngUrl : Option String

/-- Application of a `CellPatch` to one row. -/
def applyPatch (p : CellPatch) (r : Row) : Row :=
  let r := match p.status with | some v => { r with status := v } | none => r
  let r := match p.updatedAt with
    | some v => { r with updated_at := v } | none => r
  let r := match p.error with | some v => { r with error := v } | none => r
  match p.pngUrl with | some v => { r with png_url := v } | none => r

/-- Source function `updateRowCells` from worker.js: a batch update of the requested cells
of row `i`. -/
def updateRowCells (rows : List Row) (i : Nat) (p : CellPatch) : List Row :=
  listModify rows i (applyPatch p)

/-- The renderer's HTTP response as seen by `callRenderer`: a non-ok
response with a status code and body text, or an ok JSON body whose
`pngUrl` field is `""` when missing (`data?.pngUrl || ""`). -/
inductive FetchResp where
  | httpErr (status : Nat) (text : String)
  | ok (pngUrl : String)
deriving Repr, DecidableEq

/-- Source function `callRenderer` from worker.js: throw on a non-ok response or an empty
`pngUrl`, else return the URL. -/
def callRenderer : FetchResp → Except String String
  | .httpErr status text =>
    .error ("Renderer failed (" ++ toString status ++ "): " ++
      strTake text 300)
  | .ok pngUrl =>
    if pngUrl = "" then .error "Renderer returned empty pngUrl"
    else .ok pngUrl

/-- The Resend API result: `r?.error` absent, or present with a message
(`""` models an error object without a message). -/
inductive EmailResp where
  | ok
  | err (msg : String)
deriving Repr, DecidableEq

/-- Source function `sendDeliveryEmail` from worker.js: throws
`Email failed: ${r.error.message || "unknown_resend_error"}` iff the API
reported an error. -/
def sendDeliveryEmail : EmailResp → Except String Unit
  | .ok => .ok ()
  | .err m =>
    .error ("Email failed: " ++ jsOrDefault m "unknown_resend_error")

/-- The catch-block message:
`err?.message ? String(err.message).slice(0, 500) : "unknown_error"`. -/
def errSlice (m : String) : String :=
  if m = "" then "unknown_error" else strTake m 500

/-- Processing of one picked job (worker.js lines 206–247): mark
`processing` (clearing error), call the renderer, send the email, then mark
`delivered` with the png_url — or, on any throw, mark `failed` with the
sliced message, leaving png_url untouched. -/
def runJob (fr : FetchResp) (er : EmailResp) (now : String)
    (rows : List Row) (j : Job) : List Row :=
  let rows1 := updateRowCells rows j.rowIndex
    ⟨some "processing", some now, some "", none⟩
  match callRenderer fr with
  | .error msg =>
    updateRowCells rows1 j.rowIndex
      ⟨some "failed", some now, some (errSlice msg), none⟩
  | .ok pngUrl =>
    match sendDeliveryEmail er with
    | .error msg =>
      updateRowCells rows1 j.rowIndex
        ⟨some "failed", some now, some (errSlice msg), none⟩
    | .ok _ =>
      updateRowCells rows1 j.rowIndex
        ⟨some "delivered", some now, some "", some pngUrl⟩

/-- One authorized worker invocation (the CRON bearer gate is assumed
passed and the environment configured): claim the picked batch and process
each job in order; a dry run (`?dry=1`) reports the batch without touching
the store. -/
def invoke (fetch : Job → FetchResp) (mail : Job → EmailResp) (now : String)
    (arg : LimitArg) (dry : Bool) (rows : List Row) : List Row :=
  if dry then rows
  else (picked rows arg).foldl
    (fun acc j => runJob (fetch j) (mail j) now acc j) rows

end Worker

/-! ### Helper lemmas -/

theorem listModify_length (l : List α) (i : Nat) (f : α → α) :
    (listModify l i f).length = l.length :=
  List.length_modify f i l

theorem listModify_getElem?_self (l : List α) (i : Nat) (f : α → α) :
    (listModify l i f)[i]? = l[i]?.map f := by
  unfold listModify
  rw [List.getElem?_modify_eq]
  rfl

theorem listModify_getElem?_ne (l : List α) {i j : Nat} (f : α → α)
    (h : i ≠ j) : (listModify l i f)[j]? = l[j]? :=
  List.getElem?_modify_ne f l h

theorem listModify_listModify (l : List α) (i : Nat) (f g : α → α) :
    listModify (listModify l i f) i g = listModify l i (g ∘ f) :=
  List.modify_modify_eq f g i l

theorem strTake_ne_empty {s : String} (h : s ≠ "") {n : Nat} (hn : 0 < n) :
    strTake s n ≠ "" := by
  cases s with
  | mk data =>
    cases data with
    | nil => exact absurd (by decide) h
    | cons a t =>
      cases n with
      | zero => omega
      | succ m =>
        intro hc
        have hd := congrArg String.data hc
        simp [strTake] at hd

theorem jsOrDefault_ne_empty {m d : String} (h : d ≠ "") :
    jsOrDefault m d ≠ "" := by
  unfold jsOrDefault
  split <;> simp_all

theorem errSlice_ne_empty (m : String) : Worker.errSlice m ≠ "" := by
  unfold Worker.errSlice
  split
  · decide
  · exact strTake_ne_empty (by assumption) (by omega)

theorem mem_queuedJobsAux {j : Worker.Job} :
    ∀ (rows : List Row) (k : Nat), j ∈ Worker.queuedJobsAux k rows →
      k ≤ j.rowIndex ∧ ∃ r, rows[j.rowIndex - k]? = some r ∧
        jsTrim r.session_id ≠ "" ∧ jsTrim r.email ≠ "" ∧
        Worker.normStatus r.status = "queued" ∧
        j.sessionId = jsTrim r.session_id ∧ j.email = jsTrim r.email := by
  intro rows
  induction rows with
  | nil => intro k h; simp [Worker.queuedJobsAux] at h
  | cons r rest ih =>
    intro k h
    simp only [Worker.queuedJobsAux] at h
    split at h
    · rcases List.mem_cons.mp h with rfl | h
      · refine ⟨Nat.le_refl _, r, ?_, ?_⟩
        · simp
        · simp_all
      · rcases ih (k + 1) h with ⟨hk, r', hr', hrest⟩
        refine ⟨by omega, r', ?_, hrest⟩
        have hidx : j.rowIndex - k = (j.rowIndex - (k + 1)) + 1 := by omega
        rw [hidx]
        simpa using hr'
    · rcases ih (k + 1) h with ⟨hk, r', hr', hrest⟩
      refine ⟨by omega, r', ?_, hrest⟩
      have hidx : j.rowIndex - k = (j.rowIndex - (k + 1)) + 1 := by omega
      rw [hidx]
      simpa using hr'

theorem mem_queuedJobs {j : Worker.Job} {rows : List Row}
    (h : j ∈ Worker.queuedJobs rows) :
    ∃ r, rows[j.rowIndex]? = some r ∧
      jsTrim r.session_id ≠ "" ∧ jsTrim r.email ≠ "" ∧
      Worker.normStatus r.status = "queued" ∧
      j.sessionId = jsTrim r.session_id ∧ j.email = jsTrim r.email := by
  have hm := mem_queuedJobsAux rows 0 h
  simpa using hm.2

theorem mem_picked {j : Worker.Job} {rows : List Row} {arg : Worker.LimitArg}
    (h : j ∈ Worker.picked rows arg) : j ∈ Worker.queuedJobs rows := by
  unfold Worker.picked at h
  exact List.take_subset _ _ h

theorem updateRowCells_getElem?_ne (rows : List Row) {i k : Nat}
    (p : Worker.CellPatch) (h : i ≠ k) :
    (Worker.updateRowCells rows i p)[k]? = rows[k]? :=
  listModify_getElem?_ne rows _ h

theorem runJob_getElem?_ne (fr : Worker.FetchResp) (er : Worker.EmailResp)
    (now : String) (rows : List Row) (j : Worker.Job) {i : Nat}
    (h : j.rowIndex ≠ i) :
    (Worker.runJob fr er now rows j)[i]? = rows[i]? := by
  unfold Worker.runJob
  cases Worker.callRenderer fr with
  | error msg =>
    rw [updateRowCells_getElem?_ne _ _ h, updateRowCells_getElem?_ne _ _ h]
  | ok png =>
    cases Worker.sendDeliveryEmail er with
    | error msg =>
      rw [updateRowCells_getElem?_ne _ _ h, updateRowCells_getElem?_ne _ _ h]
    | ok u =>
      rw [updateRowCells_getElem?_ne _ _ h, updateRowCells_getElem?_ne _ _ h]

theorem foldl_runJob_getElem?_ne (fetch : Worker.Job → Worker.FetchResp)
    (mail : Worker.Job → Worker.EmailResp) (now : String) :
    ∀ (jobs : List Worker.Job) (rows : List Row) (i : Nat),
      (∀ j ∈ jobs, j.rowIndex ≠ i) →
      (jobs.foldl (fun acc j => Worker.runJob (fetch j) (mail j) now acc j)
        rows)[i]? = rows[i]? := by
  intro jobs
  induction jobs with
  | nil => intro rows i _; rfl
  | cons j t ih =>
    intro rows i h
    simp only [List.foldl_cons]
    rw [ih _ _ (fun x hx => h x (List.mem_cons_of_mem _ hx)),
      runJob_getElem?_ne _ _ _ _ _ (h j (List.mem_cons_self _ _))]

theorem invoke_preserves_empty_email (fetch : Worker.Job → Worker.FetchResp)
    (mail : Worker.Job → Worker.EmailResp) (now : String)
    (arg : Worker.LimitArg) (dry : Bool) {rows : List Row} {i : Nat} {r : Row}
    (hr : rows[i]? = some r) (he : jsTrim r.email = "") :
    (Worker.invoke fetch mail now arg dry rows)[i]? = some r := by
  unfold Worker.invoke
  split
  · exact hr
  · rw [foldl_runJob_getElem?_ne]
    · exact hr
    · intro j hj hji
      rcases mem_queuedJobs (mem_picked hj) with ⟨r', hr', _, hee, _⟩
      rw [hji, hr] at hr'
      cases hr'
      exact hee he

theorem sliceCount_cast_le {q : ℚ} (h : 0 ≤ q) :
    ((Worker.sliceCount (some q) : ℕ) : ℚ) ≤ q := by
  simp only [Worker.sliceCount]
  have hfloor : (q.num / (q.den : Int)) = ⌊q⌋ := Rat.floor_def.symm
  rw [hfloor]
  have h0 : (0 : ℤ) ≤ ⌊q⌋ := Int.floor_nonneg.mpr h
  have hcast : ((⌊q⌋.toNat : ℕ) : ℚ) = ((⌊q⌋ : ℤ) : ℚ) := by
    exact_mod_cast congrArg (fun z : ℤ => (z : ℚ)) (Int.toNat_of_nonneg h0)
  rw [hcast]
  exact Int.floor_le q

theorem clamp_comm (n : ℚ) : max 1 (min 10 n) = min 10 (max 1 n) := by
  rw [max_min_distrib_left]
  norm_num

theorem sliceCount_three : Worker.sliceCount (some 3) = 3 := by
  norm_num [Worker.sliceCount, Rat.num_ofNat, Rat.den_ofNat]
  rfl

/-- Helper fact: `callRenderer` only succeeds with a non-empty URL (it throws on
`data?.pngUrl || "" === ""`). -/
theorem callRenderer_ok_ne_empty {fr : Worker.FetchResp} {url : String}
    (h : Worker.callRenderer fr = .ok url) : url ≠ "" := by
  cases fr with
  | httpErr s t => simp [Worker.callRenderer] at h
  | ok png =>
    by_cases hp : png = ""
    · simp [Worker.callRenderer, hp] at h
    · simp only [Worker.callRenderer, if_neg hp] at h
      cases h
      exact hp

/-! ### Claims -/

/-- C6: for every valid signed event whose type is not
`checkout.session.completed`, every intake handler acknowledges with
HTTP 200 and performs no store mutation (and no image generation). -/
theorem claim_C6 (event : StripeEvent) (store : List Row)
    (store2 : List WebhookB.OrdersRow) (now : String) (d : DeliveryOutcome)
    (appendOk : Bool)
    (h : event.type ≠ "checkout.session.completed") :
    Part000.handler (.valid event) store now = (200, store, 0) ∧
    Part001.handler "POST" (.valid event) store now d = (200, store, 0) ∧
    Part002.handler "POST" (.valid event) store now d = (200, store, 0) ∧
    Part003.handler "POST" (.valid event) store now d = (200, store, 0) ∧
    WebhookA.handler "POST" (.valid event) = 200 ∧
    WebhookB.handler "POST" (.valid event) (some event) appendOk store2 now =
      (200, store2) := by
  refine ⟨?_, ?_, ?_, ?_, ?_, ?_⟩ <;>
    simp [Part000.handler, Part001.handler, Part002.handler, Part003.handler,
      WebhookA.handler, WebhookB.handler, h]

/-- C6 witness: a `payment_intent.succeeded` event is acknowledged with 200
and mutates nothing, in every handler. -/
theorem claim_C6_witness :
    Part000.handler
      (.valid ⟨"payment_intent.succeeded",
        ⟨"cs_6", "paid", "a@b.c", "", "", "", "", "", "", ""⟩⟩)
      [] "t0" = (200, [], 0) ∧
    Part001.handler "POST"
      (.valid ⟨"payment_intent.succeeded",
        ⟨"cs_6", "paid", "a@b.c", "", "", "", "", "", "", ""⟩⟩)
      [] "t0" (.ok "u") = (200, [], 0) := by
  have h := claim_C6
    ⟨"payment_intent.succeeded",
      ⟨"cs_6", "paid", "a@b.c", "", "", "", "", "", "", ""⟩⟩
    [] [] "t0" (.ok "u") true (by decide)
  exact ⟨h.1, h.2.1⟩

/-- C4: when the render (or upload) step fails, the record transitions to
`failed` with a non-empty error and the png_url is left unchanged — in the
deferred worker (renderer call throws) and in the inline part_001 variant
(the try-block throws).  The resulting row is stated as a record update
that never touches `png_url`. -/
theorem claim_C4 :
    (∀ (fr : Worker.FetchResp) (er : Worker.EmailResp) (now : String)
      (rows : List Row) (j : Worker.Job) (r : Row) (msg : String),
      rows[j.rowIndex]? = some r →
      Worker.callRenderer fr = .error msg →
      (Worker.runJob fr er now rows j)[j.rowIndex]? =
        some { r with
          status := "failed", updated_at := now,
          error := Worker.errSlice msg } ∧
      Worker.errSlice msg ≠ "" ∧
      (Row.png_url { r with
        status := "failed", updated_at := now,
        error := Worker.errSlice msg }) = r.png_url) ∧
    (∀ (event : StripeEvent) (store store1 : List Row) (now : String)
      (j : Nat) (r1 : Row) (m : String),
      event.type = "checkout.session.completed" →
      Part001.upsert store event.session.id
        (orElseStr event.session.customer_details_email
          event.session.customer_email) now = .proceed store1 →
      Part001.findRowIndexBySessionId store1 event.session.id = some j →
      store1[j]? = some r1 →
      Part001.handler "POST" (.valid event) store now (.err m) =
        (500, Part001.updateOrderStatus store1 j "failed"
          (jsOrDefault m "unknown_error") now, 1) ∧
      (Part001.updateOrderStatus store1 j "failed"
          (jsOrDefault m "unknown_error") now)[j]? =
        some { r1 with
          status := "failed", updated_at := now,
          error := jsOrDefault m "unknown_error" } ∧
      jsOrDefault m "unknown_error" ≠ "") := by
  constructor
  · intro fr er now rows j r msg hr hfr
    refine ⟨?_, errSlice_ne_empty msg, rfl⟩
    unfold Worker.runJob
    rw [hfr]
    simp only [Worker.updateRowCells, listModify_listModify,
      listModify_getElem?_self, hr, Option.map_some]
    rfl
  · intro event store store1 now j r1 m htype hup hfind hr1
    have hh : Part001.handler "POST" (.valid event) store now (.err m) =
        (500, Part001.updateOrderStatus store1 j "failed"
          (jsOrDefault m "unknown_error") now, 1) := by
      simp only [Part001.handler, htype]
      rw [if_neg (by simp)]
      rw [if_neg (by simp [htype])]
      simp only [hup, hfind]
    refine ⟨hh, ?_, jsOrDefault_ne_empty (by decide)⟩
    simp only [Part001.updateOrderStatus, listModify_getElem?_self, hr1]
    rfl

/-- C4 witness: a renderer HTTP failure marks the worker row `failed` with a
non-empty error and untouched png_url, and a thrown inline delivery in
part_001 marks the row `failed` likewise. -/
theorem claim_C4_witness :
    (Worker.runJob (.httpErr 500 "boom") .ok "t1"
        [⟨"s4", "e@x.io", "queued", "t0", "t0", "", ""⟩]
        ⟨0, "s4", "e@x.io"⟩)[0]? =
      some ⟨"s4", "e@x.io", "failed", "t0", "t1",
        "Renderer failed (500): boom", ""⟩ ∧
    Part001.handler "POST"
      (.valid ⟨"checkout.session.completed",
        ⟨"cs_4", "paid", "d@e.f", "", "", "", "", "", "", ""⟩⟩)
      [] "t1" (.err "font missing") =
      (500, [⟨"cs_4", "d@e.f", "failed", "t1", "t1", "font missing", ""⟩], 1) := by
  constructor
  · have h := claim_C4.1 (.httpErr 500 "boom") .ok "t1"
      [⟨"s4", "e@x.io", "queued", "t0", "t0", "", ""⟩]
      ⟨0, "s4", "e@x.io"⟩ ⟨"s4", "e@x.io", "queued", "t0", "t0", "", ""⟩
      "Renderer failed (500): boom" rfl rfl
    simpa using h.1
  · have h := claim_C4.2
      ⟨"checkout.session.completed",
        ⟨"cs_4", "paid", "d@e.f", "", "", "", "", "", "", ""⟩⟩
      [] [⟨"cs_4", "d@e.f", "processing", "t1", "t1", "", ""⟩] "t1" 0
      ⟨"cs_4", "d@e.f", "processing", "t1", "t1", "", ""⟩ "font missing"
      rfl rfl rfl rfl
    simpa using h.1

/-- C5: a valid signed completed-checkout event whose session id matches no
existing row appends exactly one new record, with status `queued` (part_000)
resp. `processing` (the part_001 upsert), and with the email extracted as
`customer_details.email || customer_email`. -/
theorem claim_C5 (event : StripeEvent) (store : List Row) (now : String)
    (htype : event.type = "checkout.session.completed") :
    ((jsToLower (Part000.norm event.session.payment_status) = "" ∨
      jsToLower (Part000.norm event.session.payment_status) = "paid") →
     Part000.norm event.session.id ≠ "" →
     Part000.norm (orElseStr event.session.customer_details_email
       event.session.customer_email) ≠ "" →
     store.findIdx? (fun r => Part000.norm r.session_id ==
       Part000.norm event.session.id) = none →
     Part000.handler (.valid event) store now =
       (200, store ++ [⟨Part000.norm event.session.id,
         Part000.norm (orElseStr event.session.customer_details_email
           event.session.customer_email), "queued", now, now, "", ""⟩], 0)) ∧
    (Part001.findRowIndexBySessionId store event.session.id = none →
     Part001.upsert store event.session.id
       (orElseStr event.session.customer_details_email
         event.session.customer_email) now =
       .proceed (store ++ [⟨event.session.id,
         orElseStr event.session.customer_details_email
           event.session.customer_email, "processing", now, now, "", ""⟩])) := by
  constructor
  · intro hpay hsid hemail hfind
    simp only [Part000.handler, htype]
    rw [if_neg (by simp)]
    rcases hpay with hp | hp <;>
      rw [if_neg (by simp [hp])] <;>
      rw [if_neg hsid, if_neg hemail, hfind]
  · intro hfind
    simp only [Part001.upsert, hfind, Part001.appendOrderRow]

/-- C5 witness: a fresh completed checkout appends one `queued` row in
part_000 and one `processing` row in the part_001 upsert, carrying the
extracted email. -/
theorem claim_C5_witness :
    Part000.handler
      (.valid ⟨"checkout.session.completed",
        ⟨"cs_5", "paid", "w5@x.io", "", "", "", "", "", "", ""⟩⟩)
      [] "t0" =
      (200, [⟨"cs_5", "w5@x.io", "queued", "t0", "t0", "", ""⟩], 0) ∧
    Part001.upsert [] "cs_5" "w5@x.io" "t0" =
      .proceed [⟨"cs_5", "w5@x.io", "processing", "t0", "t0", "", ""⟩] := by
  have h := claim_C5
    ⟨"checkout.session.completed",
      ⟨"cs_5", "paid", "w5@x.io", "", "", "", "", "", "", ""⟩⟩
    [] "t0" rfl
  exact ⟨by simpa using h.1 (Or.inr rfl) (by decide) (by decide) rfl,
    by simpa using h.2 rfl⟩

/-- C9: the worker claims at most `min(10, max(1, n))` queued rows when the
limit parameter parses to `n`, never more than there are queued rows; the
bound is 3 when the parameter is absent; and a non-numeric parameter makes
the clamp NaN, `slice(0, NaN)` claims zero rows and the invocation
processes nothing. -/
theorem claim_C9 (rows : List Row) (n : ℚ) :
    ((Worker.picked rows (.num n)).length : ℚ) ≤ min 10 (max 1 n) ∧
    (Worker.picked rows (.num n)).length ≤ (Worker.queuedJobs rows).length ∧
    (Worker.picked rows .absent).length =
      min 3 (Worker.queuedJobs rows).length ∧
    Worker.picked rows .nan = [] ∧
    (∀ (fetch : Worker.Job → Worker.FetchResp)
      (mail : Worker.Job → Worker.EmailResp) (now : String),
      Worker.invoke fetch mail now .nan false rows = rows) := by
  refine ⟨?_, ?_, ?_, ?_, ?_⟩
  · have hlen : (Worker.picked rows (.num n)).length =
        min (Worker.sliceCount (Worker.clampedLimit (.num n)))
          (Worker.queuedJobs rows).length := by
      simp [Worker.picked, List.length_take]
    rw [hlen]
    have h1 : ((min (Worker.sliceCount (Worker.clampedLimit (.num n)))
        (Worker.queuedJobs rows).length : ℕ) : ℚ) ≤
        ((Worker.sliceCount (Worker.clampedLimit (.num n)) : ℕ) : ℚ) := by
      exact_mod_cast Nat.min_le_left _ _
    have h2 : ((Worker.sliceCount (Worker.clampedLimit (.num n)) : ℕ) : ℚ) ≤
        max 1 (min 10 n) := by
      have h0 : (0 : ℚ) ≤ max 1 (min 10 n) :=
        le_trans zero_le_one (le_max_left 1 _)
      simpa [Worker.clampedLimit] using sliceCount_cast_le h0
    calc ((min (Worker.sliceCount (Worker.clampedLimit (.num n)))
          (Worker.queuedJobs rows).length : ℕ) : ℚ)
        ≤ ((Worker.sliceCount (Worker.clampedLimit (.num n)) : ℕ) : ℚ) := h1
      _ ≤ max 1 (min 10 n) := h2
      _ = min 10 (max 1 n) := clamp_comm n
  · simp only [Worker.picked, List.length_take]
    exact Nat.min_le_right _ _
  · simp [Worker.picked, Worker.clampedLimit, sliceCount_three,
      List.length_take]
  · rfl
  · intro fetch mail now
    rfl

/-- C10: a row is claimed only when its trimmed session_id and email are
non-empty and its normalised status is "queued"; consequently a queued row
with an empty email is never claimed and is left untouched (still `queued`)
by arbitrarily many worker invocations. -/
theorem claim_C10 :
    (∀ (rows : List Row) (arg : Worker.LimitArg) (j : Worker.Job),
      j ∈ Worker.picked rows arg →
      ∃ r, rows[j.rowIndex]? = some r ∧ jsTrim r.session_id ≠ "" ∧
        jsTrim r.email ≠ "" ∧ Worker.normStatus r.status = "queued") ∧
    (∀ (rows : List Row) (i : Nat) (r : Row),
      rows[i]? = some r → jsTrim r.email = "" →
      ∀ (fetch : Worker.Job → Worker.FetchResp)
        (mail : Worker.Job → Worker.EmailResp) (now : String)
        (arg : Worker.LimitArg) (dry : Bool) (n : Nat),
        ((Worker.invoke fetch mail now arg dry)^[n] rows)[i]? = some r) := by
  constructor
  · intro rows arg j hj
    rcases mem_queuedJobs (mem_picked hj) with ⟨r, hr, h1, h2, h3, _⟩
    exact ⟨r, hr, h1, h2, h3⟩
  · intro rows i r hr he fetch mail now arg dry n
    induction n with
    | zero => simpa using hr
    | succ m ih =>
      rw [Function.iterate_succ_apply']
      exact invoke_preserves_empty_email _ _ _ _ _ ih he

/-- C10 witness: a queued row with session and email is claimed (with the
claimed-only-if conditions holding), and a queued row whose email is empty
survives two full invocations unchanged. -/
theorem claim_C10_witness :
    (∃ r, ([⟨"s10", "w@x.io", "queued", "t0", "t0", "", ""⟩] :
        List Row)[(⟨0, "s10", "w@x.io"⟩ : Worker.Job).rowIndex]? = some r ∧
      jsTrim r.session_id ≠ "" ∧ jsTrim r.email ≠ "" ∧
      Worker.normStatus r.status = "queued") ∧
    ((Worker.invoke (fun _ => .ok "u") (fun _ => .ok) "t1" .absent
        false)^[2] [⟨"s11", " ", "queued", "t0", "t0", "", ""⟩])[0]? =
      some ⟨"s11", " ", "queued", "t0", "t0", "", ""⟩ := by
  constructor
  · exact claim_C10.1 [⟨"s10", "w@x.io", "queued", "t0", "t0", "", ""⟩]
      .absent ⟨0, "s10", "w@x.io"⟩ (by decide)
  · exact claim_C10.2 [⟨"s11", " ", "queued", "t0", "t0", "", ""⟩] 0
      ⟨"s11", " ", "queued", "t0", "t0", "", ""⟩ rfl (by decide)
      (fun _ => .ok "u") (fun _ => .ok) "t1" .absent false 2

/-- C1 (counterexample): the part_002 debug variant does NOT acknowledge an
already-`delivered` row without reprocessing: on a second delivery of the
same valid event it generates the image again (render count 1, not 0) and
rewrites the row in place. -/
theorem claim_C1_cex :
    (Part002.handler "POST"
      (.valid ⟨"checkout.session.completed",
        ⟨"cs_1", "paid", "a@b.c", "", "", "", "", "", "", ""⟩⟩)
      [⟨"cs_1", "a@b.c", "delivered", "t0", "t0", "", ""⟩] "t1"
      (.ok "https://blob/cs_1.png")).2.2 = 1 ∧
    (Part002.handler "POST"
      (.valid ⟨"checkout.session.completed",
        ⟨"cs_1", "paid", "a@b.c", "", "", "", "", "", "", ""⟩⟩)
      [⟨"cs_1", "a@b.c", "delivered", "t0", "t0", "", ""⟩] "t1"
      (.ok "https://blob/cs_1.png")).2.1 =
      [⟨"cs_1", "a@b.c", "delivered", "t0", "t1", "", ""⟩] := by
  constructor <;> rfl

/-- C1 (amended): on a second delivery of the same valid completed-checkout
event, no variant that looks the session up appends a second row; part_000
acknowledges any existing row without mutation, and part_001 acknowledges a
`delivered` row without rendering; the part_002 (and part_003) debug
variants instead reset the row in place and render again, still appending
nothing. -/
theorem claim_C1_amended (event : StripeEvent) (store : List Row)
    (now : String) (d : DeliveryOutcome) (i : Nat)
    (htype : event.type = "checkout.session.completed") :
    ((((jsToLower (Part000.norm event.session.payment_status)) = "" ∨
       (jsToLower (Part000.norm event.session.payment_status)) = "paid")) →
     Part000.norm event.session.id ≠ "" →
     Part000.norm (orElseStr event.session.customer_details_email
       event.session.customer_email) ≠ "" →
     (store.findIdx? (fun r => Part000.norm r.session_id ==
       Part000.norm event.session.id)).isSome →
     Part000.handler (.valid event) store now = (200, store, 0)) ∧
    (Part001.findRowIndexBySessionId store event.session.id = some i →
     Part001.getStatusByRow store i = "delivered" →
     Part001.handler "POST" (.valid event) store now d = (200, store, 0)) ∧
    (Part002.findRowIndexBySessionId store event.session.id = some i →
     (Part002.handler "POST" (.valid event) store now d).2.1.length =
       store.length) := by
  refine ⟨?_, ?_, ?_⟩
  · intro hpay hsid hemail hfound
    rcases Option.isSome_iff_exists.mp hfound with ⟨k, hk⟩
    simp only [Part000.handler, htype]
    rw [if_neg (by simp)]
    rcases hpay with hp | hp <;>
      rw [if_neg (by simp [hp])] <;>
      rw [if_neg hsid, if_neg hemail, hk]
  · intro hfind hstat
    simp only [Part001.handler, htype]
    rw [if_neg (by simp)]
    rw [if_neg (by simp [htype])]
    simp [Part001.upsert, hfind, hstat]
  · intro hfind
    simp only [Part002.handler, htype]
    rw [if_neg (by simp)]
    rw [if_neg (by simp [htype])]
    simp only [hfind]
    cases d <;>
      simp [Part002.fulfill, Part002.updateOrderStatus, listModify_length]

/-- C1 witness: with a `delivered` row for the session already present,
part_000 and part_001 acknowledge with 200 and an unchanged store (no
render), and part_002 appends nothing (store length stays 1). -/
theorem claim_C1_witness :
    Part000.handler
      (.valid ⟨"checkout.session.completed",
        ⟨"cs_1w", "paid", "a@b.c", "", "", "", "", "", "", ""⟩⟩)
      [⟨"cs_1w", "a@b.c", "delivered", "t0", "t0", "", ""⟩] "t1" =
      (200, [⟨"cs_1w", "a@b.c", "delivered", "t0", "t0", "", ""⟩], 0) ∧
    Part001.handler "POST"
      (.valid ⟨"checkout.session.completed",
        ⟨"cs_1w", "paid", "a@b.c", "", "", "", "", "", "", ""⟩⟩)
      [⟨"cs_1w", "a@b.c", "delivered", "t0", "t0", "", ""⟩] "t1"
      (.ok "u") =
      (200, [⟨"cs_1w", "a@b.c", "delivered", "t0", "t0", "", ""⟩], 0) ∧
    (Part002.handler "POST"
      (.valid ⟨"checkout.session.completed",
        ⟨"cs_1w", "paid", "a@b.c", "", "", "", "", "", "", ""⟩⟩)
      [⟨"cs_1w", "a@b.c", "delivered", "t0", "t0", "", ""⟩] "t1"
      (.ok "u")).2.1.length = 1 := by
  have h := claim_C1_amended
    ⟨"checkout.session.completed",
      ⟨"cs_1w", "paid", "a@b.c", "", "", "", "", "", "", ""⟩⟩
    [⟨"cs_1w", "a@b.c", "delivered", "t0", "t0", "", ""⟩] "t1" (.ok "u") 0
    rfl
  exact ⟨h.1 (Or.inr rfl) (by decide) (by decide) (by decide),
    h.2.1 (by decide) rfl, h.2.2 (by decide)⟩

/-- C2 (counterexample): the second handler of webhook.js performs no
signature verification at all — a POST whose signature header is missing
still appends a row to the Orders tab and is answered 200, not 400. -/
theorem claim_C2_cex :
    (WebhookB.handler "POST" .missing
      (some ⟨"checkout.session.completed",
        ⟨"cs_2", "paid", "b@c.d", "", "", "", "pi_2", "500", "usd", "Ann"⟩⟩)
      true [] "t0").1 = 200 ∧
    (WebhookB.handler "POST" .missing
      (some ⟨"checkout.session.completed",
        ⟨"cs_2", "paid", "b@c.d", "", "", "", "pi_2", "500", "usd", "Ann"⟩⟩)
      true [] "t0").2.length = 1 := by
  constructor <;> rfl

/-- C2 (amended): every intake handler that calls the signature verifier
(part_000, part_001, part_002, part_003, and the first webhook.js handler)
answers 400 and mutates nothing when the `stripe-signature` header is
absent or the signature is invalid; only the second webhook.js handler
skips verification entirely. -/
theorem claim_C2_amended (store : List Row) (now : String)
    (d : DeliveryOutcome) :
    Part000.handler .missing store now = (400, store, 0) ∧
    Part000.handler .invalid store now = (400, store, 0) ∧
    Part001.handler "POST" .missing store now d = (400, store, 0) ∧
    Part001.handler "POST" .invalid store now d = (400, store, 0) ∧
    Part002.handler "POST" .missing store now d = (400, store, 0) ∧
    Part002.handler "POST" .invalid store now d = (400, store, 0) ∧
    Part003.handler "POST" .missing store now d = (400, store, 0) ∧
    Part003.handler "POST" .invalid store now d = (400, store, 0) ∧
    WebhookA.handler "POST" .missing = 400 ∧
    WebhookA.handler "POST" .invalid = 400 := by
  refine ⟨rfl, rfl, ?_, ?_, ?_, ?_, ?_, ?_, rfl, rfl⟩ <;>
    simp [Part001.handler, Part002.handler, Part003.handler]

/-- C3 (counterexample): in the part_001 inline-fulfillment variant a fully
successful render and upload leaves the stored record `delivered` with an
EMPTY png_url — the sheet schema of that variant ends at the error column,
so the URL is never persisted. -/
theorem claim_C3_cex :
    ((Part001.handler "POST"
      (.valid ⟨"checkout.session.completed",
        ⟨"cs_3", "paid", "c@d.e", "", "", "", "", "", "", ""⟩⟩)
      [] "t1" (.ok "https://blob/cs_3.png")).2.1)[0]? =
      some ⟨"cs_3", "c@d.e", "delivered", "t1", "t1", "", ""⟩ := by
  rfl

/-- C3 (amended): when the renderer call and the delivery email of the
deferred worker succeed, the row becomes `delivered` with the non-empty
png_url and an empty error; in the inline part_001 variant a successful
render and upload set `delivered` with empty error, but png_url is not
persisted (it keeps its previous value). -/
theorem claim_C3_amended :
    (∀ (fr : Worker.FetchResp) (er : Worker.EmailResp) (now : String)
      (rows : List Row) (j : Worker.Job) (r : Row) (url : String),
      rows[j.rowIndex]? = some r →
      Worker.callRenderer fr = .ok url →
      Worker.sendDeliveryEmail er = .ok () →
      (Worker.runJob fr er now rows j)[j.rowIndex]? =
        some { r with
          status := "delivered", updated_at := now, error := "",
          png_url := url } ∧
      url ≠ "") ∧
    (∀ (event : StripeEvent) (store store1 : List Row) (now : String)
      (j : Nat) (r1 : Row) (url : String),
      event.type = "checkout.session.completed" →
      Part001.upsert store event.session.id
        (orElseStr event.session.customer_details_email
          event.session.customer_email) now = .proceed store1 →
      Part001.findRowIndexBySessionId store1 event.session.id = some j →
      store1[j]? = some r1 →
      Part001.handler "POST" (.valid event) store now (.ok url) =
        (200, Part001.updateOrderStatus store1 j "delivered" "" now, 1) ∧
      (Part001.updateOrderStatus store1 j "delivered" "" now)[j]? =
        some { r1 with
          status := "delivered", updated_at := now, error := "" }) := by
  constructor
  · intro fr er now rows j r url hr hfr her
    refine ⟨?_, callRenderer_ok_ne_empty hfr⟩
    unfold Worker.runJob
    rw [hfr, her]
    simp only [Worker.updateRowCells, listModify_listModify,
      listModify_getElem?_self, hr]
    rfl
  · intro event store store1 now j r1 url htype hup hfind hr1
    constructor
    · simp only [Part001.handler, htype]
      rw [if_neg (by simp)]
      rw [if_neg (by simp [htype])]
      simp only [hup, hfind]
    · simp only [Part001.updateOrderStatus, listModify_getElem?_self, hr1]
      rfl

/-- C3 witness: a successful worker job stores the URL and `delivered`; a
successful part_001 inline delivery marks the (appended) row `delivered`
with empty error. -/
theorem claim_C3_witness :
    (Worker.runJob (.ok "https://blob/s3.png") .ok "t1"
        [⟨"s3", "e@x.io", "queued", "t0", "t0", "old", ""⟩]
        ⟨0, "s3", "e@x.io"⟩)[0]? =
      some ⟨"s3", "e@x.io", "delivered", "t0", "t1", "",
        "https://blob/s3.png"⟩ ∧
    Part001.handler "POST"
      (.valid ⟨"checkout.session.completed",
        ⟨"cs_3w", "paid", "c@d.e", "", "", "", "", "", "", ""⟩⟩)
      [] "t1" (.ok "https://blob/cs_3w.png") =
      (200, [⟨"cs_3w", "c@d.e", "delivered", "t1", "t1", "", ""⟩], 1) := by
  constructor
  · have h := claim_C3_amended.1 (.ok "https://blob/s3.png") .ok "t1"
      [⟨"s3", "e@x.io", "queued", "t0", "t0", "old", ""⟩]
      ⟨0, "s3", "e@x.io"⟩ ⟨"s3", "e@x.io", "queued", "t0", "t0", "old", ""⟩
      "https://blob/s3.png" rfl (by rfl) rfl
    simpa using h.1
  · have h := claim_C3_amended.2
      ⟨"checkout.session.completed",
        ⟨"cs_3w", "paid", "c@d.e", "", "", "", "", "", "", ""⟩⟩
      [] [⟨"cs_3w", "c@d.e", "processing", "t1", "t1", "", ""⟩] "t1" 0
      ⟨"cs_3w", "c@d.e", "processing", "t1", "t1", "", ""⟩
      "https://blob/cs_3w.png" rfl (by rfl) (by rfl) rfl
    simpa using h.1

/-- C7 (counterexample): a failed inline delivery in part_001 is answered
with HTTP 500 — a non-200 status that is not a signature/auth failure, so
"4xx only for signature/auth failures; no other request produces a non-200,
non-auth-failure status" is false as stated. -/
theorem claim_C7_cex :
    (Part001.handler "POST"
      (.valid ⟨"checkout.session.completed",
        ⟨"cs_7", "paid", "g@h.i", "", "", "", "", "", "", ""⟩⟩)
      [] "t1" (.err "render blew up")).1 = 500 := by
  rfl

/-- C7 (amended): part_000 answers only 200 or 400, and 400 only on a
missing/invalid signature or an empty session id; part_001 answers only
200, 400, 405 or 500, with 400 only on a missing/invalid signature and 405
only for a non-POST method (the 500 arises from a failed inline delivery or
a lost post-upsert lookup). -/
theorem claim_C7_amended :
    (∀ (sig : SigCheck) (store : List Row) (now : String),
      ((Part000.handler sig store now).1 = 200 ∨
       (Part000.handler sig store now).1 = 400) ∧
      ((Part000.handler sig store now).1 = 400 →
        sig = .missing ∨ sig = .invalid ∨
        ∃ event, sig = .valid event ∧ Part000.norm event.session.id = "")) ∧
    (∀ (method : String) (sig : SigCheck) (store : List Row) (now : String)
      (d : DeliveryOutcome),
      ((Part001.handler method sig store now d).1 = 200 ∨
       (Part001.handler method sig store now d).1 = 400 ∨
       (Part001.handler method sig store now d).1 = 405 ∨
       (Part001.handler method sig store now d).1 = 500) ∧
      ((Part001.handler method sig store now d).1 = 400 →
        sig = .missing ∨ sig = .invalid) ∧
      ((Part001.handler method sig store now d).1 = 405 →
        method ≠ "POST")) := by
  constructor
  · intro sig store now
    cases sig with
    | missing => simp [Part000.handler]
    | invalid => simp [Part000.handler]
    | valid ev =>
      simp only [Part000.handler]
      by_cases h1 : ev.type ≠ "checkout.session.completed"
      · rw [if_pos h1]
        simp
      · rw [if_neg h1]
        by_cases h2 :
            jsToLower (Part000.norm ev.session.payment_status) ≠ "" ∧
            jsToLower (Part000.norm ev.session.payment_status) ≠ "paid"
        · rw [if_pos h2]
          simp
        · rw [if_neg h2]
          by_cases h3 : Part000.norm ev.session.id = ""
          · rw [if_pos h3]
            simp [h3]
          · rw [if_neg h3]
            by_cases h4 : Part000.norm (orElseStr
                ev.session.customer_details_email
                ev.session.customer_email) = ""
            · rw [if_pos h4]
              simp
            · rw [if_neg h4]
              cases hfind : store.findIdx? (fun r =>
                  Part000.norm r.session_id == Part000.norm ev.session.id) with
              | none => simp [hfind]
              | some k => simp [hfind]
  · intro method sig store now d
    simp only [Part001.handler]
    by_cases hm : method ≠ "POST"
    · rw [if_pos hm]
      simp [hm]
    · rw [if_neg hm]
      cases sig with
      | missing => simp
      | invalid => simp
      | valid ev =>
        dsimp only
        by_cases ht : ev.type ≠ "checkout.session.completed"
        · rw [if_pos ht]
          simp
        · rw [if_neg ht]
          cases hu : Part001.upsert store ev.session.id
              (orElseStr ev.session.customer_details_email
                ev.session.customer_email) now with
          | duplicate st => simp [hu]
          | proceed store1 =>
            simp only [hu]
            cases hf : Part001.findRowIndexBySessionId store1
                ev.session.id with
            | none => simp [hf]
            | some k =>
              simp only [hf]
              cases d with
              | ok u => simp
              | err m => simp

/-- C7 witness: concrete instances of the amended status contract — a
missing-signature request to part_000 lands in {200, 400}, and a failed
inline delivery in part_001 lands in {200, 400, 405, 500}. -/
theorem claim_C7_witness :
    ((Part000.handler .missing [] "t0").1 = 200 ∨
     (Part000.handler .missing [] "t0").1 = 400) ∧
    ((Part001.handler "POST"
        (.valid ⟨"checkout.session.completed",
          ⟨"cs_7w", "paid", "g@h.i", "", "", "", "", "", "", ""⟩⟩)
        [] "t0" (.err "boom")).1 = 200 ∨
     (Part001.handler "POST"
        (.valid ⟨"checkout.session.completed",
          ⟨"cs_7w", "paid", "g@h.i", "", "", "", "", "", "", ""⟩⟩)
        [] "t0" (.err "boom")).1 = 400 ∨
     (Part001.handler "POST"
        (.valid ⟨"checkout.session.completed",
          ⟨"cs_7w", "paid", "g@h.i", "", "", "", "", "", "", ""⟩⟩)
        [] "t0" (.err "boom")).1 = 405 ∨
     (Part001.handler "POST"
        (.valid ⟨"checkout.session.completed",
          ⟨"cs_7w", "paid", "g@h.i", "", "", "", "", "", "", ""⟩⟩)
        [] "t0" (.err "boom")).1 = 500) := by
  exact ⟨(claim_C7_amended.1 .missing [] "t0").1,
    (claim_C7_amended.2 "POST"
      (.valid ⟨"checkout.session.completed",
        ⟨"cs_7w", "paid", "g@h.i", "", "", "", "", "", "", ""⟩⟩)
      [] "t0" (.err "boom")).1⟩

/-- C8 (counterexample): part_000 does NOT tolerate a missing session id —
a validly signed completed-checkout event with an empty `session.id` is
rejected with HTTP 400, not acknowledged with 200. -/
theorem claim_C8_cex :
    Part000.handler
      (.valid ⟨"checkout.session.completed",
        ⟨"", "paid", "h@i.j", "", "", "", "", "", "", ""⟩⟩)
      [] "t0" = (400, [], 0) := by
  rfl

/-- C8 (amended): of the two "required" fields of part_000, only a missing
customer email is tolerated (acknowledged with 200 and skipped, no
mutation); a missing/empty session id is rejected with 400 (also without
mutation). -/
theorem claim_C8_amended (event : StripeEvent) (store : List Row)
    (now : String)
    (htype : event.type = "checkout.session.completed")
    (hpay : jsToLower (Part000.norm event.session.payment_status) = "" ∨
      jsToLower (Part000.norm event.session.payment_status) = "paid") :
    (Part000.norm event.session.id ≠ "" →
     Part000.norm (orElseStr event.session.customer_details_email
       event.session.customer_email) = "" →
     Part000.handler (.valid event) store now = (200, store, 0)) ∧
    (Part000.norm event.session.id = "" →
     Part000.handler (.valid event) store now = (400, store, 0)) := by
  constructor
  · intro hsid hemail
    simp only [Part000.handler, htype]
    rw [if_neg (by simp)]
    rcases hpay with hp | hp <;>
      rw [if_neg (by simp [hp])] <;>
      rw [if_neg hsid, if_pos hemail]
  · intro hsid
    simp only [Part000.handler, htype]
    rw [if_neg (by simp)]
    rcases hpay with hp | hp <;>
      rw [if_neg (by simp [hp])] <;>
      rw [if_pos hsid]

/-- C8 witness: an event without any customer email is acknowledged with
200 and skipped; an event with an empty session id gets 400; neither
mutates the store. -/
theorem claim_C8_witness :
    Part000.handler
      (.valid ⟨"checkout.session.completed",
        ⟨"cs_8", "paid", "", "", "", "", "", "", "", ""⟩⟩)
      [] "t0" = (200, [], 0) ∧
    Part000.handler
      (.valid ⟨"checkout.session.completed",
        ⟨"", "paid", "h@i.j", "", "", "", "", "", "", ""⟩⟩)
      [⟨"x", "y", "queued", "t", "t", "", ""⟩] "t0" =
      (400, [⟨"x", "y", "queued", "t", "t", "", ""⟩], 0) := by
  constructor
  · exact (claim_C8_amended
      ⟨"checkout.session.completed",
        ⟨"cs_8", "paid", "", "", "", "", "", "", "", ""⟩⟩
      [] "t0" rfl (Or.inr rfl)).1 (by decide) rfl
  · exact (claim_C8_amended
      ⟨"checkout.session.completed",
        ⟨"", "paid", "h@i.j", "", "", "", "", "", "", ""⟩⟩
      [⟨"x", "y", "queued", "t", "t", "", ""⟩] "t0" rfl (Or.inr rfl)).2 rfl
